import Mathlib

/-!
Verification of the style-preset model of the colr repository
(`colr/preset.py`).  The `Preset` class holds three optional attributes
(`fore`, `back`, `style`), and offers invocation (wrapping text in a
`Colr`), per-axis code resolution, full code-string resolution, merging
with precedence, and equality / ordering / hashing.

The two collaborators that live outside the source under inspection —
the static code table (`colr.codes`) and the `Colr` renderer — are
modelled from the spec as parameters: the table is a lookup
`Axis → α → Option String` returning the raw escape fragment or
not-found, and the renderer is `Axis → α → Except PyError String`,
raising a validation error for unrecognized values.

Attribute values are kept generic (`α` with decidable equality, plus a
linear order where the source compares values), matching Python values
that support equality and ordering.  `Option α` models a slot, `none`
standing for Python's `None`.
-/

namespace ColrSpec

/-- The three style axes a Preset can set. -/
inductive Axis where
  | fore
  | back
  | style
deriving DecidableEq, BEq, Repr

/-- The axis names as the Python code spells them. -/
def Axis.str : Axis → String
  | .fore => "fore"
  | .back => "back"
  | .style => "style"

/-- The Python exceptions the code under verification can raise:
`TypeError` from `__eq__`/`__lt__`, `ValueError` from `code`, and the
`InvalidColr`/`InvalidStyle` validation errors raised by the `Colr`
collaborator. -/
inductive PyError where
  | typeError
  | valueError
  | invalidColr
  | invalidStyle
deriving DecidableEq, Repr

/-- `Preset.__slots__ = ('fore', 'back', 'style')`; `__init__` stores the
three arguments with no validation (`preset.py`, lines 28-31). -/
structure Preset (α : Type) where
  fore : Option α
  back : Option α
  style : Option α
deriving DecidableEq, Repr

/-- `getattr(self, codetype)` for the three known axis names. -/
def Preset.get (p : Preset α) : Axis → Option α
  | .fore => p.fore
  | .back => p.back
  | .style => p.style

/-- Modelled from the spec: the Colorizer collaborator (`colr.Colr`, not
under the sources inspected here).  Its constructor records the text and
the three axis arguments; rendering and validation are delegated to the
`render` parameter below where the code observes them. -/
structure Colr (α : Type) where
  text : String
  fore : Option α
  back : Option α
  style : Option α
deriving DecidableEq, Repr

/-- `Preset.__call__` (`preset.py`, lines 33-43): build a `Colr` from the
text, taking each per-call override when it is not `None` and the
Preset's own attribute otherwise. -/
def Preset.call (p : Preset α) (text : String)
    (fore back style : Option α) : Colr α :=
  { text := text
    fore := match fore with | none => p.fore | some v => some v
    back := match back with | none => p.back | some v => some v
    style := match style with | none => p.style | some v => some v }

/-- A Python value handed to `__eq__`/`__lt__`: either a `Preset` or some
non-`Preset` value (an int or a string are enough to cover the claims). -/
inductive PyObj (α : Type) where
  | preset : Preset α → PyObj α
  | int : Int → PyObj α
  | str : String → PyObj α

/-- `Preset.__eq__` (`preset.py`, lines 45-57): `TypeError` unless the
other operand is a `Preset`, otherwise the conjunction of the three
slot-wise equalities. -/
def Preset.eq [DecidableEq α] (p : Preset α) : PyObj α → Except PyError Bool
  | .preset o =>
      .ok (decide (p.fore = o.fore) && decide (p.back = o.back) &&
        decide (p.style = o.style))
  | _ => .error .typeError

/-- `Preset.__hash__` (`preset.py`, lines 59-60): `hash` of the
`(fore, back, style)` tuple.  Python's `hash` builtin is external, so it
is a parameter. -/
def Preset.hashv (h : Option α × Option α × Option α → Int)
    (p : Preset α) : Int :=
  h (p.fore, p.back, p.style)

/-- Python comparison `x < y` on two optional slot values: defined when
both are actual values, a `TypeError` when `None` is compared against
anything (Python 3 refuses `None < x`). -/
def pyLtOpt [LinearOrder α] : Option α → Option α → Except PyError Bool
  | some x, some y => .ok (decide (x < y))
  | _, _ => .error .typeError

/-- Python's tuple comparison on two `(fore, back, style)` triples: walk
the components, skipping equal ones (equality never raises), and decide
at the first difference; equal triples compare `False`. -/
def pyTupleLt3 [LinearOrder α]
    (a b : Option α × Option α × Option α) : Except PyError Bool :=
  if a.1 = b.1 then
    if a.2.1 = b.2.1 then
      if a.2.2 = b.2.2 then .ok false
      else pyLtOpt a.2.2 b.2.2
    else pyLtOpt a.2.1 b.2.1
  else pyLtOpt a.1 b.1

/-- `Preset.__lt__` (`preset.py`, lines 62-73): `TypeError` unless the
other operand is a `Preset`, otherwise Python's tuple comparison of the
two `(fore, back, style)` tuples. -/
def Preset.lt [LinearOrder α] (p : Preset α) :
    PyObj α → Except PyError Bool
  | .preset o => pyTupleLt3 (p.fore, p.back, p.style) (o.fore, o.back, o.style)
  | _ => .error .typeError

/-- `Preset.as_dict` (`preset.py`, lines 83-91): an insertion-ordered
dict holding exactly the slots that are not `None`, keyed `fore`, `back`,
`style` in that order. -/
def Preset.as_dict (p : Preset α) : List (Axis × α) :=
  (match p.fore with | none => [] | some v => [(Axis.fore, v)]) ++
    (match p.back with | none => [] | some v => [(Axis.back, v)]) ++
      (match p.style with | none => [] | some v => [(Axis.style, v)])

/-- Python `dict` assignment `d[k] = v` on an insertion-ordered dict with
unique keys: replace the value in place when the key is present, append a
new entry at the end otherwise. -/
def dictSet : List (Axis × α) → Axis → α → List (Axis × α)
  | [], k, v => [(k, v)]
  | kv :: rest, k, v =>
      if kv.1 = k then (k, v) :: rest else kv :: dictSet rest k v

/-- Python `d.update(e)`: assign every entry of `e` into `d`. -/
def dictUpdate (d e : List (Axis × α)) : List (Axis × α) :=
  e.foldl (fun acc kv => dictSet acc kv.1 kv.2) d

/-- Python `d.get(k)` on an attribute dict. -/
def dictGet : List (Axis × α) → Axis → Option α
  | [], _ => none
  | kv :: rest, k => if kv.1 = k then some kv.2 else dictGet rest k

/-- Python truthiness of `codes[codetype].get(val, None)`: `None` and the
empty string are falsy, any other string truthy. -/
def truthyOpt : Option String → Bool
  | none => false
  | some s => decide (s ≠ "")

/-- Membership test `codetype in ('fore', 'back', 'style')` combined with
the dispatch `getattr(self, codetype)` that follows it. -/
def strToAxis (s : String) : Option Axis :=
  if s = "fore" then some Axis.fore
  else if s = "back" then some Axis.back
  else if s = "style" then some Axis.style
  else none

/-- `Preset.code` (`preset.py`, lines 93-112): `ValueError` for an axis
name outside the three known ones; the `default` argument when the slot
is `None`; the table fragment when the lookup is truthy (`if fast:`);
otherwise `str(Colr(**kwargs))` with only that axis set, modelled by the
`render` parameter. -/
def Preset.code (ct : Axis → α → Option String)
    (render : Axis → α → Except PyError String) (p : Preset α)
    (codetype : String) (default : Option String) :
    Except PyError (Option String) :=
  match strToAxis codetype with
  | none => .error .valueError
  | some ax =>
    match p.get ax with
    | none => .ok default
    | some val =>
      let fast := ct ax val
      if truthyOpt fast then .ok fast
      else (render ax val).map some

/-- The list comprehension of `Preset.codes`: evaluate `f` left to right,
propagating the first raised error. -/
def listMapExcept (f : β → Except ε γ) : List β → Except ε (List γ)
  | [] => .ok []
  | x :: xs => do
    let y ← f x
    let ys ← listMapExcept f xs
    .ok (y :: ys)

/-- Python `''.join(l)` on a list of optional strings: `TypeError` if an
entry is `None` (it never is on the reachable paths), the concatenation
otherwise. -/
def strJoinOpt : List (Option String) → Except PyError String
  | [] => .ok ""
  | none :: _ => .error .typeError
  | some s :: rest => (strJoinOpt rest).map (fun t => s ++ t)

/-- `Preset.codes` (`preset.py`, lines 114-126): join the `code` of every
axis whose slot is not `None`, in the order `fore`, `back`, `style`. -/
def Preset.codes (ct : Axis → α → Option String)
    (render : Axis → α → Except PyError String) (p : Preset α) :
    Except PyError String := do
  let axes := [Axis.fore, Axis.back, Axis.style].filter
    (fun a => (p.get a).isSome)
  let cs ← listMapExcept (fun a => p.code ct render a.str none) axes
  strJoinOpt cs

/-- `Preset.merge` (`preset.py`, lines 128-135): overlay `self.as_dict()`
with `styleobj.as_dict()`, then with the dict of the explicit arguments,
and build a new Preset from the result. -/
def Preset.merge (p : Preset α) (styleobj : Preset α)
    (fore back style : Option α) : Preset α :=
  let d := dictUpdate p.as_dict styleobj.as_dict
  let args : Preset α := ⟨fore, back, style⟩
  let d2 := dictUpdate d args.as_dict
  ⟨dictGet d2 Axis.fore, dictGet d2 Axis.back, dictGet d2 Axis.style⟩

/-! ### Helper lemmas about the dict model and the Except monad -/

theorem dictGet_dictSet (d : List (Axis × α)) (k k' : Axis) (v : α) :
    dictGet (dictSet d k' v) k = if k = k' then some v else dictGet d k := by
  induction d with
  | nil =>
    by_cases hk : k = k'
    · subst hk; simp [dictSet, dictGet]
    · simp [dictSet, dictGet, hk, Ne.symm hk]
  | cons a rest ih =>
    by_cases ha : a.1 = k'
    · by_cases hk : k = k'
      · subst hk; simp [dictSet, dictGet, ha]
      · simp [dictSet, dictGet, ha, hk, Ne.symm hk]
    · by_cases hak : a.1 = k
      · have hk : ¬(k = k') := fun h => ha (hak.trans h)
        simp [dictSet, dictGet, ha, hak, hk]
      · simp [dictSet, dictGet, ha, hak, ih]

theorem dictGet_as_dict (p : Preset α) (k : Axis) :
    dictGet p.as_dict k = p.get k := by
  obtain ⟨f, b, s⟩ := p
  cases f <;> cases b <;> cases s <;> cases k <;> rfl

theorem dictGet_update_as_dict (d : List (Axis × α)) (q : Preset α)
    (k : Axis) :
    dictGet (dictUpdate d q.as_dict) k
      = Option.or (q.get k) (dictGet d k) := by
  obtain ⟨f, b, s⟩ := q
  cases f <;> cases b <;> cases s <;> cases k <;>
    simp [Preset.as_dict, dictUpdate, dictGet_dictSet, Preset.get, Option.or]

theorem merge_get (p q : Preset α) (f b s : Option α) (k : Axis) :
    (p.merge q f b s).get k
      = Option.or ((Preset.mk f b s).get k)
          (Option.or (q.get k) (p.get k)) := by
  have hres : (p.merge q f b s).get k
      = dictGet (dictUpdate (dictUpdate p.as_dict q.as_dict)
          (Preset.as_dict ⟨f, b, s⟩)) k := by
    cases k <;> rfl
  rw [hres, dictGet_update_as_dict, dictGet_update_as_dict, dictGet_as_dict]

theorem exBind_ok (a : β) (f : β → Except ε γ) :
    (Except.ok a >>= f) = f a := rfl

theorem exBind_error (e : ε) (f : β → Except ε γ) :
    ((Except.error e : Except ε β) >>= f) = .error e := rfl

theorem exMap_ok (a : β) (f : β → γ) :
    (Except.ok a : Except ε β).map f = .ok (f a) := rfl

theorem exMap_error (e : ε) (f : β → γ) :
    ((Except.error e : Except ε β).map f : Except ε γ) = .error e := rfl

theorem strToAxis_str (a : Axis) : strToAxis a.str = some a := by
  cases a <;> rfl


/-- Claim C1: for every two Presets and optional explicit fore/back/style
arguments, `merge` returns a Preset in which each axis holds the explicit
argument if given, otherwise the other Preset's value if set, otherwise
self's value; an absent axis in a higher layer never erases a lower
layer's value.  In this pure embedding `merge` builds a brand-new value,
so neither operand is changed by the call. -/
theorem merge_precedence (p q : Preset α) (f b s : Option α) :
    (p.merge q f b s).fore = Option.or f (Option.or q.fore p.fore) ∧
    (p.merge q f b s).back = Option.or b (Option.or q.back p.back) ∧
    (p.merge q f b s).style = Option.or s (Option.or q.style p.style) :=
  ⟨merge_get p q f b s .fore, merge_get p q f b s .back,
    merge_get p q f b s .style⟩

/-- Claim C9: invoking a Preset with per-call overrides uses each
override in place of the Preset's own value for that call only; the
Preset value itself carries its original slots into a subsequent
invocation without overrides, which renders from the original values. -/
theorem call_override_transient (p : Preset α) (t t2 : String)
    (vf vb vs : α) :
    (p.call t (some vf) (some vb) (some vs)).fore = some vf ∧
    (p.call t (some vf) (some vb) (some vs)).back = some vb ∧
    (p.call t (some vf) (some vb) (some vs)).style = some vs ∧
    (p.call t (some vf) none none).back = p.back ∧
    (p.call t (some vf) none none).style = p.style ∧
    p.call t2 none none none = ⟨t2, p.fore, p.back, p.style⟩ :=
  ⟨rfl, rfl, rfl, rfl, rfl, rfl⟩

/-- lexicographic order on value triples, as the spec words it -/
def lexLt3 [LinearOrder α] (a b : α × α × α) : Prop :=
  a.1 < b.1 ∨ (a.1 = b.1 ∧
    (a.2.1 < b.2.1 ∨ (a.2.1 = b.2.1 ∧ a.2.2 < b.2.2)))

instance [LinearOrder α] (a b : α × α × α) : Decidable (lexLt3 a b) := by
  unfold lexLt3; infer_instance

/-- Claim C4: `__eq__` on two Presets decides exactly the slot-wise
equality of the three slots (absent equal to absent), and `__lt__` on two
Presets whose six slots are all set (so every component comparison is
defined) decides exactly the lexicographic order of the two
`(fore, back, style)` triples. -/
theorem eq_slotwise_lt_lex [DecidableEq α] [LinearOrder α]
    (p q : Preset α) (pf pb ps qf qb qs : α)
    (hp : p = ⟨some pf, some pb, some ps⟩)
    (hq : q = ⟨some qf, some qb, some qs⟩) :
    (∀ r r2 : Preset α, r.eq (.preset r2)
        = .ok (decide (r.fore = r2.fore ∧ r.back = r2.back ∧
            r.style = r2.style))) ∧
    p.lt (.preset q) = .ok (decide (lexLt3 (pf, pb, ps) (qf, qb, qs))) := by
  constructor
  · intro r r2
    simp [Preset.eq, Bool.decide_and, Bool.and_assoc]
  · subst hp hq
    simp only [Preset.lt, pyTupleLt3, pyLtOpt]
    by_cases h1 : pf = qf
    · subst h1
      by_cases h2 : pb = qb
      · subst h2
        by_cases h3 : ps = qs
        · subst h3
          simp [lexLt3, lt_irrefl]
        · simp [lexLt3, h3, lt_irrefl]
      · simp [lexLt3, h2]
    · simp [lexLt3, h1]

/-- Claim C5: `__eq__` and `__lt__` applied to any value that is not a
Preset raise `TypeError` instead of returning a boolean or an ordering
result. -/
theorem eq_lt_non_preset [DecidableEq α] [LinearOrder α]
    (p : Preset α) (o : PyObj α) (h : ∀ q, o ≠ PyObj.preset q) :
    p.eq o = .error .typeError ∧ p.lt o = .error .typeError := by
  cases o with
  | preset q => exact absurd rfl (h q)
  | int n => exact ⟨rfl, rfl⟩
  | str s => exact ⟨rfl, rfl⟩

theorem eq_lt_non_preset_witness :
    (Preset.eq ⟨some 1, none, none⟩ (PyObj.int 42) : Except PyError Bool)
        = .error .typeError ∧
    (Preset.lt (⟨some 1, none, none⟩ : Preset ℕ) (PyObj.str "red"))
        = .error .typeError :=
  ⟨(eq_lt_non_preset ⟨some 1, none, none⟩ (PyObj.int 42)
      (fun q hq => by cases hq)).1,
   (eq_lt_non_preset ⟨some 1, none, none⟩ (PyObj.str "red")
      (fun q hq => by cases hq)).2⟩

/-- Claim C6: `__hash__` depends only on the `(fore, back, style)`
triple, so two Presets that `__eq__` reports equal hash identically under
any hash function of the triple. -/
theorem hash_consistent [DecidableEq α]
    (h : Option α × Option α × Option α → Int) (p q : Preset α)
    (he : p.eq (.preset q) = .ok true) : p.hashv h = q.hashv h := by
  simp only [Preset.eq, Except.ok.injEq, Bool.and_eq_true,
    decide_eq_true_eq] at he
  obtain ⟨⟨h1, h2⟩, h3⟩ := he
  unfold Preset.hashv
  rw [h1, h2, h3]

/-- Claim C7: `code` with any axis name outside `fore`/`back`/`style`
raises `ValueError`, for every table, renderer, Preset and default —
before any lookup or rendering can contribute. -/
theorem code_bad_axis (ct : Axis → α → Option String)
    (render : Axis → α → Except PyError String) (p : Preset α)
    (s : String) (d : Option String)
    (h1 : s ≠ "fore") (h2 : s ≠ "back") (h3 : s ≠ "style") :
    p.code ct render s d = .error .valueError := by
  unfold Preset.code strToAxis
  simp [h1, h2, h3]

theorem code_eq_axis (ct : Axis → α → Option String)
    (render : Axis → α → Except PyError String) (p : Preset α)
    (ax : Axis) (d : Option String) :
    p.code ct render ax.str d =
      match p.get ax with
      | none => .ok d
      | some val =>
          if truthyOpt (ct ax val) then .ok (ct ax val)
          else (render ax val).map some := by
  cases ax <;> rfl

/-- Claim C2: `code` on a known axis returns the default when the slot
is absent; returns the table's raw fragment as-is (never touching the
renderer) when the slot's value is found in the table, given that table
fragments are real escape codes (non-empty, hence truthy); and delegates
to the renderer with only that one axis set when the table lookup misses. -/
theorem code_resolution (ct : Axis → α → Option String)
    (render : Axis → α → Except PyError String)
    (hct : ∀ a v s, ct a v = some s → s ≠ "")
    (p : Preset α) (ax : Axis) (d : Option String) :
    (p.get ax = none → p.code ct render ax.str d = .ok d) ∧
    (∀ v frag, p.get ax = some v → ct ax v = some frag →
      p.code ct render ax.str d = .ok (some frag)) ∧
    (∀ v, p.get ax = some v → ct ax v = none →
      p.code ct render ax.str d = (render ax v).map some) := by
  refine ⟨fun h => ?_, fun v frag hv hf => ?_, fun v hv hf => ?_⟩
  · rw [code_eq_axis, h]
  · rw [code_eq_axis, hv]
    dsimp only
    rw [hf]
    simp [truthyOpt, hct ax v frag hf]
  · rw [code_eq_axis, hv]
    dsimp only
    rw [hf]
    simp [truthyOpt]

/-- concrete table for witnesses: one named color on the fore axis -/
def ct0 : Axis → String → Option String := fun a v =>
  if a = Axis.fore then
    (if v = "red" then some "\x1b[31m" else none)
  else none

/-- concrete renderer for witnesses: rejects every calculated value -/
def r0 : Axis → String → Except PyError String := fun _ _ =>
  .error .invalidColr

theorem ct0_frag_ne_empty : ∀ a v s, ct0 a v = some s → s ≠ "" := by
  intro a v s h
  unfold ct0 at h
  split at h
  · split at h
    · cases h; decide
    · exact absurd h (by simp)
  · exact absurd h (by simp)

theorem code_resolution_witness :
    (⟨some "red", none, none⟩ : Preset String).code ct0 r0 "fore" none
      = .ok (some "\x1b[31m") := by
  have h := code_resolution ct0 r0 ct0_frag_ne_empty
      (⟨some "red", none, none⟩ : Preset String) .fore none
  exact h.2.1 "red" "\x1b[31m" rfl (by simp [ct0])

theorem code_bad_axis_witness :
    (⟨none, none, none⟩ : Preset ℕ).code (fun _ _ => none)
        (fun _ _ => .error .invalidColr) "bogus" none
      = .error .valueError :=
  code_bad_axis (fun _ _ => none) (fun _ _ => .error .invalidColr)
    ⟨none, none, none⟩ "bogus" none (by decide) (by decide) (by decide)

theorem eq_slotwise_lt_lex_witness :
    ((⟨some 1, some 2, some 3⟩ : Preset ℕ).eq
        (.preset ⟨some 1, some 2, some 3⟩) = .ok true) ∧
    ((⟨some 1, some 2, some 3⟩ : Preset ℕ).lt
        (.preset ⟨some 1, some 2, some 4⟩) = .ok true) := by
  have h := eq_slotwise_lt_lex (⟨some 1, some 2, some 3⟩ : Preset ℕ)
      ⟨some 1, some 2, some 4⟩ 1 2 3 1 2 4 rfl rfl
  refine ⟨?_, ?_⟩
  · exact (h.1 ⟨some 1, some 2, some 3⟩ ⟨some 1, some 2, some 3⟩).trans (by rfl)
  · exact h.2.trans (by rfl)

theorem hash_consistent_witness :
    (⟨some 1, none, none⟩ : Preset ℕ).hashv (fun _ => 7)
      = (⟨some 1, none, none⟩ : Preset ℕ).hashv (fun _ => 7) :=
  hash_consistent (fun _ => 7) ⟨some 1, none, none⟩ ⟨some 1, none, none⟩
    (by rfl)

/-- Claim C3: `codes` returns the concatenation, in the fixed order
fore, back, style, of the `code` of each non-absent axis resolved with no
default; absent axes contribute nothing, and a Preset with all three
axes absent yields the empty string. -/
theorem codes_concat (ct : Axis → α → Option String)
    (render : Axis → α → Except PyError String) (p : Preset α)
    (rf rb rs : String)
    (hf : (p.fore = none ∧ rf = "") ∨ (∃ v, p.fore = some v ∧
        p.code ct render Axis.fore.str none = .ok (some rf)))
    (hb : (p.back = none ∧ rb = "") ∨ (∃ v, p.back = some v ∧
        p.code ct render Axis.back.str none = .ok (some rb)))
    (hs : (p.style = none ∧ rs = "") ∨ (∃ v, p.style = some v ∧
        p.code ct render Axis.style.str none = .ok (some rs))) :
    p.codes ct render = .ok (rf ++ rb ++ rs) ∧
    (⟨none, none, none⟩ : Preset α).codes ct render = .ok "" := by
  constructor
  · obtain ⟨f, b, s⟩ := p
    rcases hf with ⟨rfl, rfl⟩ | ⟨vf, rfl, h1⟩ <;>
      rcases hb with ⟨rfl, rfl⟩ | ⟨vb, rfl, h2⟩ <;>
        rcases hs with ⟨rfl, rfl⟩ | ⟨vs, rfl, h3⟩ <;>
          simp_all [Preset.codes, List.filter, Preset.get, listMapExcept,
            strJoinOpt, String.append_assoc, exBind_ok, exBind_error,
            exMap_ok, exMap_error]
  · rfl

theorem codes_concat_witness :
    (⟨some "red", none, none⟩ : Preset String).codes ct0 r0
      = .ok "\x1b[31m" := by
  have h := codes_concat ct0 r0 (⟨some "red", none, none⟩ : Preset String)
      "\x1b[31m" "" ""
      (Or.inr ⟨"red", rfl, by rfl⟩) (Or.inl ⟨rfl, rfl⟩) (Or.inl ⟨rfl, rfl⟩)
  exact h.1

/-- Claim C8: construction stores any attribute values unchanged and
never fails; a value the collaborators reject only raises when codes are
resolved, the error aborts the whole resolution with no partial result,
and `as_dict` on the same Preset still reports the invalid value
unchanged. -/
theorem construct_defers_validation (f b s : Option α)
    (ct : Axis → α → Option String)
    (render : Axis → α → Except PyError String) (v : α) (e : PyError)
    (hct : ct Axis.fore v = none) (hr : render Axis.fore v = .error e) :
    ((Preset.mk f b s).fore = f ∧ (Preset.mk f b s).back = b ∧
      (Preset.mk f b s).style = s) ∧
    (⟨some v, none, none⟩ : Preset α).codes ct render = .error e ∧
    (⟨some v, none, none⟩ : Preset α).as_dict = [(Axis.fore, v)] := by
  refine ⟨⟨rfl, rfl, rfl⟩, ?_, rfl⟩
  have hc : (⟨some v, none, none⟩ : Preset α).code ct render
      Axis.fore.str none = .error e := by
    rw [code_eq_axis]
    dsimp only [Preset.get]
    rw [hct]
    simp [truthyOpt, hr, exMap_error]
  simp [Preset.codes, List.filter, Preset.get, listMapExcept, hc,
    exBind_error]

theorem construct_defers_validation_witness :
    (⟨some "not-a-color", none, none⟩ : Preset String).codes
        (fun _ _ => none) (fun _ _ => .error .invalidColr)
      = .error .invalidColr :=
  (construct_defers_validation none none none (fun _ _ => none)
    (fun _ _ => .error .invalidColr) "not-a-color" .invalidColr
    rfl rfl).2.1

/-- Claim C10: absent means exactly `None` throughout: a falsy
non-`None` override (the empty string) replaces the Preset's value while
a `None` override keeps it; `as_dict` holds an axis exactly when its slot
is not `None`; `codes` resolves a slot holding the empty string instead
of skipping it; `code` looks a falsy non-`None` slot up rather than
returning the default, and returns the default exactly when the slot is
`None`; and `merge` treats an empty-string axis as set. -/
theorem absent_means_none (p : Preset String) (t : String)
    (ct : Axis → String → Option String)
    (render : Axis → String → Except PyError String) (d : String) :
    (p.call t (some "") none none).fore = some "" ∧
    (p.call t none none none).fore = p.fore ∧
    (∀ ax : Axis, dictGet p.as_dict ax = p.get ax) ∧
    ((⟨some "", none, none⟩ : Preset String).codes ct render
      = ((⟨some "", none, none⟩ : Preset String).code ct render
          Axis.fore.str none) >>= fun c => strJoinOpt [c]) ∧
    ((⟨some "", none, none⟩ : Preset String).code ct render
        Axis.fore.str (some d)
      = if truthyOpt (ct Axis.fore "") then .ok (ct Axis.fore "")
        else (render Axis.fore "").map some) ∧
    ((⟨none, none, none⟩ : Preset String).code ct render
        Axis.fore.str (some d) = .ok (some d)) ∧
    ((⟨some "", none, none⟩ : Preset String).merge ⟨none, none, none⟩
        none none none).fore = some "" := by
  refine ⟨rfl, rfl, dictGet_as_dict p, ?_, ?_, rfl, ?_⟩
  · cases hc : (⟨some "", none, none⟩ : Preset String).code ct render
        Axis.fore.str none with
    | error e =>
      simp [Preset.codes, List.filter, Preset.get, listMapExcept, hc,
        exBind_error]
    | ok o =>
      simp [Preset.codes, List.filter, Preset.get, listMapExcept, hc,
        exBind_ok]
  · rw [code_eq_axis]; rfl
  · exact (merge_get ⟨some "", none, none⟩ ⟨none, none, none⟩
      none none none Axis.fore).trans rfl

end ColrSpec
